import Mathlib

/-!
# Verification of the IMS weather-service core against its specification

Shallow embedding of the core modules of the `ims` weather-data service:

* `src/cache.ts`      — two-level (memory + file) cache with lazy expiry;
* `src/utils.ts`      — date-range helpers and hourly/daily aggregation;
* `src/imsApi.ts`     — multi-channel station fetch and the `/api/forecast`
                        source-resolution pipeline;
* `src/fallbackForecast.ts` — synthetic forecast generator;
* `src/forecastAdapter.ts`  — feed-path response formatting (`source` tag).

Conventions used throughout the embedding:

* JavaScript values stored in the cache are modelled by the inductive `JsVal`
  together with JavaScript's truthiness predicate, because `cache.get` tests
  cached data with `if (memoryData)` / `if (fileData)` (plain truthiness).
* Clock time (`Date.now()`) is an explicit `now : Int` parameter (epoch ms).
* Calendar dates are modelled as integer day counts since 1970-01-01 (UTC);
  `dayToISO` renders such a day count to a `YYYY-MM-DD` string exactly as
  `Date.prototype.toISOString().split('T')[0]` does.
* Asynchronous, fallible collaborators (the upstream HTTP fetches, the
  caller-supplied cache producer) are modelled as explicit `Except Unit _`
  values: `.error ()` is a rejected promise / thrown error.
* `Math.random()` is modelled as an explicit stream `rand : Nat → Q` consumed
  at explicit indices; `Math.sin` as an ambient function `jsSin : Q → Q`.
  Theorems about the synthetic generator hold for every such stream/function,
  hence in particular for the real ones.
-/

/-! ## JavaScript values and truthiness -/

/-- A JavaScript value as stored in the cache: `null`, a number, a string or
an array.  This is the fragment needed by the cache claims; arrays carry
numbers only because the cache never inspects a stored payload beyond its
truthiness, so the element type is immaterial. -/
inductive JsVal where
  | vNull
  | vNum (n : Int)
  | vStr (s : String)
  | vArr (xs : List Int)
  deriving DecidableEq, Repr

/-- JavaScript truthiness: `null`, `0` and `""` are falsy; every array
(including the empty array) is truthy. -/
def JsVal.truthy : JsVal → Bool
  | .vNull => false
  | .vNum n => n ≠ 0
  | .vStr s => s ≠ ""
  | .vArr _ => true

/-! ## Two-level cache (`src/cache.ts`) -/

/-- Embedding of `CacheType` in `cache.ts`: `'stations' | 'forecast'`. -/
inductive CacheType where
  | stations
  | forecast
  deriving DecidableEq, Repr

/-- Embedding of `CacheParams` in `cache.ts`.  `from`/`to` are renamed `fromD`/`toD`
(`from` is a Lean keyword).  Each field is optional exactly as in the
TypeScript interface; a missing field interpolates as `"undefined"` in the
template string of `getCacheKey`. -/
structure CacheParams where
  stationId : Option String := none
  fromD : Option String := none
  toD : Option String := none
  deriving DecidableEq, Repr

/-- Embedding of `CACHE_DURATIONS` (milliseconds): stations 48 h, forecast 24 h. -/
def CACHE_DURATIONS : CacheType → Int
  | .stations => 48 * 60 * 60 * 1000
  | .forecast => 24 * 60 * 60 * 1000

/-- Interpolation of an optional string into a JS template literal:
a missing (`undefined`) value prints as `"undefined"`. -/
def interp (o : Option String) : String := o.getD "undefined"

/-- Embedding of `getCacheKey` in `cache.ts`: `'stations'` ignores the params,
`'forecast'` builds `forecast_${stationId}_${from}_${to}`. -/
def getCacheKey (type : CacheType) (params : CacheParams) : Option String :=
  match type with
  | .stations => some "stations_list"
  | .forecast =>
      some ("forecast_" ++ interp params.stationId ++ "_" ++
        interp params.fromD ++ "_" ++ interp params.toD)

/-- A cache entry: payload plus creation timestamp (epoch ms). -/
structure CacheEntry where
  data : JsVal
  timestamp : Int
  deriving DecidableEq, Repr

/-- A key-value table (the JS `Map` / the cache directory), as an
association list with unique keys maintained by `tset`. -/
abbrev Table := List (String × CacheEntry)

/-- Lookup in a table (`Map.get` / reading `key.json`). -/
def tget (t : Table) (k : String) : Option CacheEntry :=
  (t.find? (fun p => p.1 = k)).map (·.2)

/-- Insert/overwrite in a table (`Map.set` / writing `key.json`). -/
def tset : Table → String → CacheEntry → Table
  | [], k, e => [(k, e)]
  | (k', e') :: rest, k, e =>
      if k' = k then (k, e) :: rest else (k', e') :: tset rest k e

/-- Remove a key from a table (`Map.delete` / `fs.unlink`). -/
def terase (t : Table) (k : String) : Table :=
  t.filter (fun p => p.1 ≠ k)

/-- The two cache tiers: the in-process `memoryCache` map and the durable
`.cache` file directory (one record per key). -/
structure CacheState where
  memoryCache : Table
  fileCache : Table
  deriving DecidableEq, Repr

/-- The empty cache state (fresh process, empty cache directory). -/
def emptyCacheState : CacheState := ⟨[], []⟩

/-- Embedding of `isExpired` in `cache.ts`: `Date.now() - timestamp > duration`. -/
def isExpired (timestamp duration now : Int) : Bool :=
  now - timestamp > duration

/-- Embedding of `getFromMemory`: returns the stored data on a fresh hit, deletes the
entry and returns `null` when expired, returns `null` on a miss.  The JS
function returns `T | null`; the returned `JsVal` is `vNull` for a miss. -/
def getFromMemory (st : CacheState) (key : String) (duration now : Int) :
    JsVal × CacheState :=
  match tget st.memoryCache key with
  | none => (.vNull, st)
  | some cached =>
      if isExpired cached.timestamp duration now then
        (.vNull, { st with memoryCache := terase st.memoryCache key })
      else
        (cached.data, st)

/-- Embedding of `setInMemory`: store `(data, Date.now())` under `key`. -/
def setInMemory (st : CacheState) (key : String) (data : JsVal) (now : Int) :
    CacheState :=
  { st with memoryCache := tset st.memoryCache key ⟨data, now⟩ }

/-- Embedding of `getFromFile`: reads `key.json`; unlinks it and misses when expired; on a
fresh hit it also re-populates the memory tier (with a fresh timestamp) and
returns the data.  Read errors (missing file) are the `none` branch. -/
def getFromFile (st : CacheState) (key : String) (duration now : Int) :
    JsVal × CacheState :=
  match tget st.fileCache key with
  | none => (.vNull, st)
  | some cached =>
      if isExpired cached.timestamp duration now then
        (.vNull, { st with fileCache := terase st.fileCache key })
      else
        (cached.data, setInMemory st key cached.data now)

/-- Embedding of `setInFile`: write `{data, timestamp: Date.now()}` to `key.json`. -/
def setInFile (st : CacheState) (key : String) (data : JsVal) (now : Int) :
    CacheState :=
  { st with fileCache := tset st.fileCache key ⟨data, now⟩ }

instance {ε α : Type} [DecidableEq ε] [DecidableEq α] :
    DecidableEq (Except ε α) := fun a b =>
  match a, b with
  | .ok x, .ok y =>
      if h : x = y then .isTrue (h ▸ rfl)
      else .isFalse (fun he => h (Except.ok.inj he))
  | .error x, .error y =>
      if h : x = y then .isTrue (h ▸ rfl)
      else .isFalse (fun he => h (Except.error.inj he))
  | .ok _, .error _ => .isFalse Except.noConfusion
  | .error _, .ok _ => .isFalse Except.noConfusion

/-- Result of one `cache.get` call: the value returned to the caller (or the
propagated producer error), the cache state afterwards, and whether the
caller-supplied producer was invoked. -/
structure GetResult where
  result : Except Unit JsVal
  state : CacheState
  producerInvoked : Bool
  deriving DecidableEq, Repr

/-- Embedding of `cache.get(type, params, { fetcher, duration })` from `cache.ts`.

* `fetcher` is the caller-supplied producer: `none` when absent,
  `some (.ok v)` when it resolves with `v`, `some (.error ())` when it throws.
* `durationOpt` models `options.duration`; the JS `options.duration ||
  CACHE_DURATIONS[type]` falls back to the default when the override is
  absent *or* `0` (falsy).
* Lookup order: memory tier, then file tier (each with lazy eviction of an
  expired entry), then the producer; a produced value is stored in both
  tiers; a producer error is re-thrown with nothing stored.
* The hit tests are JS truthiness tests (`if (memoryData)`), so a stored
  falsy value falls through as if absent. -/
def cacheGet (st : CacheState) (type : CacheType) (params : CacheParams)
    (fetcher : Option (Except Unit JsVal)) (durationOpt : Option Int)
    (now : Int) : GetResult :=
  match getCacheKey type params with
  | none => ⟨.ok .vNull, st, false⟩
  | some key =>
      let duration :=
        match durationOpt with
        | some d => if d = 0 then CACHE_DURATIONS type else d
        | none => CACHE_DURATIONS type
      let m := getFromMemory st key duration now
      if m.1.truthy then ⟨.ok m.1, m.2, false⟩
      else
        let f := getFromFile m.2 key duration now
        if f.1.truthy then ⟨.ok f.1, f.2, false⟩
        else
          match fetcher with
          | some (.ok data) =>
              ⟨.ok data, setInFile (setInMemory f.2 key data now) key data now,
                true⟩
          | some (.error e) => ⟨.error e, f.2, true⟩
          | none => ⟨.ok .vNull, f.2, false⟩

/-- Embedding of `cache.set(type, data, params)`: store in both tiers. -/
def cacheSet (st : CacheState) (type : CacheType) (data : JsVal)
    (params : CacheParams) (now : Int) : CacheState :=
  match getCacheKey type params with
  | none => st
  | some key => setInFile (setInMemory st key data now) key data now

/-! ## Executable exact rationals

JavaScript numbers are IEEE doubles; the embedding idealises them as exact
rationals.  `Q` is an *unnormalised* fraction `num/den` with `den > 0`
maintained by construction (Lean's `Rat` normalises through `Nat.gcd`,
which the kernel cannot reduce, so `decide` could not evaluate it).
Structural equality on `Q` is representation equality; it is only ever used
between values computed by the very same operations. -/
structure Q where
  num : Int
  den : Int
  deriving DecidableEq, Repr

instance (n : Nat) : OfNat Q n := ⟨⟨n, 1⟩⟩

instance : NatCast Q := ⟨fun n => ⟨n, 1⟩⟩

instance : IntCast Q := ⟨fun n => ⟨n, 1⟩⟩

instance : Add Q := ⟨fun a b => ⟨a.num * b.den + b.num * a.den, a.den * b.den⟩⟩

instance : Sub Q := ⟨fun a b => ⟨a.num * b.den - b.num * a.den, a.den * b.den⟩⟩

instance : Mul Q := ⟨fun a b => ⟨a.num * b.num, a.den * b.den⟩⟩

instance : Div Q :=
  ⟨fun a b =>
    if b.num < 0 then ⟨-(a.num * b.den), -(a.den * b.num)⟩
    else ⟨a.num * b.den, a.den * b.num⟩⟩

instance : LT Q := ⟨fun a b => a.num * b.den < b.num * a.den⟩

instance : LE Q := ⟨fun a b => a.num * b.den ≤ b.num * a.den⟩

instance (a b : Q) : Decidable (a < b) :=
  inferInstanceAs (Decidable (a.num * b.den < b.num * a.den))

instance (a b : Q) : Decidable (a ≤ b) :=
  inferInstanceAs (Decidable (a.num * b.den ≤ b.num * a.den))

instance : Min Q := ⟨fun a b => if a ≤ b then a else b⟩

instance : Max Q := ⟨fun a b => if a ≤ b then b else a⟩

/-! ## Dates, numbers and formatting -/

/-- Embedding of `String.padStart(2, '0')` on a decimal rendering. -/
def pad2 (n : Nat) : String :=
  if n < 10 then "0" ++ toString n else toString n

/-- Floor of a rational, computed from its numerator and denominator
(`den > 0` by construction). -/
def ratFloor (q : Q) : Int := Int.fdiv q.num q.den

/-- Embedding of `Number.prototype.toFixed(f)` as an integer of scaled units: round to the
nearest multiple of `10^(-f)`, ties to the larger value, exactly ECMA-262's
"if there are two such n, pick the larger n". -/
def jsFixedInt (f : Nat) (q : Q) : Int :=
  ratFloor (q * ⟨(10 : Int) ^ f, 1⟩ + ⟨1, 2⟩)

/-- Embedding of `x.toFixed(1)` rendered as a string. -/
def toFixed1 (q : Q) : String :=
  let n := jsFixedInt 1 q
  let sign := if n < 0 then "-" else ""
  sign ++ toString (n.natAbs / 10) ++ "." ++ toString (n.natAbs % 10)

/-- Embedding of `x.toFixed(0)` rendered as a string. -/
def toFixed0 (q : Q) : String := toString (jsFixedInt 0 q)

/-- Civil calendar date from a day count since 1970-01-01 (proleptic
Gregorian): `(year, month, day)`.  This is the arithmetic underlying the
JavaScript `Date`/`toISOString` pair for midnight-UTC dates. -/
def dayToCivil (z0 : Int) : Int × Nat × Nat :=
  let z := z0 + 719468
  let era := (if 0 ≤ z then z else z - 146096) / 146097
  let doe := (z - era * 146097).toNat
  let yoe := (doe - doe / 1460 + doe / 36524 - doe / 146096) / 365
  let doy := doe - (365 * yoe + yoe / 4 - yoe / 100)
  let mp := (5 * doy + 2) / 153
  let d := doy - (153 * mp + 2) / 5 + 1
  let m := if mp < 10 then mp + 3 else mp - 9
  ((yoe : Int) + era * 400 + (if m ≤ 2 then 1 else 0), m, d)

/-- Embedding of `date.toISOString().split('T')[0]` for a midnight-UTC date given as a
day count: the `YYYY-MM-DD` string. -/
def dayToISO (z : Int) : String :=
  let c := dayToCivil z
  toString c.1 ++ "-" ++ pad2 c.2.1 ++ "-" ++ pad2 c.2.2

/-- A `{from, to}` date range.  Dates are day counts since 1970-01-01 (the
TypeScript `DateRange` holds the corresponding `YYYY-MM-DD` strings, related
to this model by `dayToISO`).  `from` is a Lean keyword, hence `fromD`. -/
structure DateRange where
  fromD : Int
  toD : Int
  deriving DecidableEq, Repr

/-- Embedding of `getDateRange` in `utils.ts`: backward-looking window for historical
station data, anchored with *today as the end date*; spans 2 / 7 / 30 days
for `today` / `week` / `month` (default 2). -/
def getDateRange (today : Int) (period : String) : DateRange :=
  if period = "today" then ⟨today - 2, today⟩
  else if period = "week" then ⟨today - 7, today⟩
  else if period = "month" then ⟨today - 30, today⟩
  else ⟨today - 2, today⟩

/-- Modelled from the spec: `getForecastDateRange` is exercised by
`src/imsApi.ts` and the unit tests but its body is missing from
`src/utils.ts` (the repository's `docs/XML_FEED_README.md` lists it
verbatim).  Forward-looking window for forecasts, anchored with *today as
the start date*; inclusive spans 2 / 7 / 30 days for `today` / `week` /
`month` (default 2), i.e. end offsets +1 / +6 / +29. -/
def getForecastDateRange (today : Int) (period : String) : DateRange :=
  if period = "today" then ⟨today, today + 1⟩
  else if period = "week" then ⟨today, today + 6⟩
  else if period = "month" then ⟨today, today + 29⟩
  else ⟨today, today + 1⟩

/-! ## Raw station data (`src/imsApi.ts` types) -/

/-- A reading timestamp, by the calendar fields the aggregation reads off a
parsed `Date` (`getFullYear`, `getMonth()+1`, `getDate`, `getHours`, plus
minutes to order readings within an hour). -/
structure JsDate where
  year : Int
  month : Nat
  day : Nat
  hour : Nat
  minute : Nat
  deriving DecidableEq, Repr

/-- Embedding of `Date` comparison (`readingTime > lastTempTime`): lexicographic on the
calendar fields, which agrees with epoch-milliseconds order. -/
def JsDate.ltb (a b : JsDate) : Bool :=
  if a.year < b.year then true else if b.year < a.year then false
  else if a.month < b.month then true else if b.month < a.month then false
  else if a.day < b.day then true else if b.day < a.day then false
  else if a.hour < b.hour then true else if b.hour < a.hour then false
  else decide (a.minute < b.minute)

/-- The hour bucket key built in `aggregateHourly`:
`` `${y}-${m}-${d} ${h}:00` `` with zero-padded fields. -/
def hourKey (t : JsDate) : String :=
  toString t.year ++ "-" ++ pad2 t.month ++ "-" ++ pad2 t.day ++ " " ++
    pad2 t.hour ++ ":00"

/-- The day bucket key built in `aggregateDaily`: `` `${y}-${m}-${d}` ``. -/
def dayKey (t : JsDate) : String :=
  toString t.year ++ "-" ++ pad2 t.month ++ "-" ++ pad2 t.day

/-- Embedding of `ChannelValue`: one scalar with its quality `status` and validity flag. -/
structure ChannelValue where
  value : Q
  status : String
  valid : Bool
  deriving DecidableEq, Repr

/-- Embedding of `DataReading`: one timestamp plus the channel values reported for it. -/
structure DataReading where
  datetime : JsDate
  channels : List ChannelValue
  deriving DecidableEq, Repr

/-- Embedding of `StationDataResponse`: one channel's readings for one station. -/
structure StationDataResponse where
  stationId : Int
  channelId : Int
  data : List DataReading
  deriving DecidableEq, Repr

/-- Embedding of `ChannelDataItem`: `{channelId, data}` as assembled by
`getStationDataMultiChannel`. -/
structure ChannelDataItem where
  channelId : Int
  data : StationDataResponse
  deriving DecidableEq, Repr

/-! ## Aggregation engine (`src/utils.ts`) -/

/-- Embedding of `HourlyForecast`: `null` fields are `none`. -/
structure HourlyForecast where
  time : String
  temp : Option String
  humidity : Option String
  windSpeed : Option String
  windDir : Option String
  rain : Option String
  deriving DecidableEq, Repr

/-- Embedding of `DailyForecast`: `null` fields are `none`. -/
structure DailyForecast where
  date : String
  tempMin : Option String
  tempMax : Option String
  tempCurrent : Option String
  humidity : Option String
  windSpeed : Option String
  rain : Option String
  deriving DecidableEq, Repr

/-- The per-hour accumulator (`HourlyDataAccumulator`). -/
structure HourlyAcc where
  time : String
  temp : List Q
  humidity : List Q
  windSpeed : List Q
  windDir : List Q
  rain : List Q
  deriving DecidableEq, Repr

/-- The per-day accumulator (`DailyDataAccumulator`). -/
structure DailyAcc where
  date : String
  temps : List Q
  lastTemp : Option Q
  lastTempTime : Option JsDate
  humidity : List Q
  windSpeed : List Q
  rain : List Q
  deriving DecidableEq, Repr

/-- One step on the bucket map (a JS object, which preserves insertion order
for these keys): create the bucket with `init` if absent, then apply `f`. -/
def bstep {α : Type} (k : String) (init : α) (f : α → α) :
    List (String × α) → List (String × α)
  | [] => [(k, f init)]
  | (k', a) :: rest =>
      if k' = k then (k', f a) :: rest else (k', a) :: bstep k init f rest

/-- Insertion into a sorted list, for `Array.prototype.sort` with the
string comparator `(a, b) => a.key.localeCompare(b.key)`. -/
def insertSorted {α : Type} (le : α → α → Bool) (x : α) :
    List α → List α
  | [] => [x]
  | y :: ys => if le x y then x :: y :: ys else y :: insertSorted le x ys

/-- Sort (insertion sort); bucket keys are pairwise distinct, so any
comparison sort yields this order. -/
def sortByB {α : Type} (le : α → α → Bool) (l : List α) : List α :=
  l.foldr (insertSorted le) []

/-- String comparison `a.localeCompare(b) ≤ 0` (lexicographic order on the
code units, which is what `localeCompare` yields for these ASCII keys). -/
def strLe (a b : String) : Bool := !(decide (b < a))

/-- The empty hour accumulator for a key. -/
def emptyHourlyAcc (k : String) : HourlyAcc := ⟨k, [], [], [], [], []⟩

/-- The `switch (channel.channelId)` of `aggregateHourly`: push the value
into the field for channel 7/8/4/5/1, ignore any other channel id. -/
def hourlyPush (cid : Int) (v : Q) (a : HourlyAcc) : HourlyAcc :=
  if cid = 7 then { a with temp := a.temp ++ [v] }
  else if cid = 8 then { a with humidity := a.humidity ++ [v] }
  else if cid = 4 then { a with windSpeed := a.windSpeed ++ [v] }
  else if cid = 5 then { a with windDir := a.windDir ++ [v] }
  else if cid = 1 then { a with rain := a.rain ++ [v] }
  else a

/-- Processing one reading in `aggregateHourly`: the bucket is created
first, then the value of `reading.channels[0]` (when present) is pushed.
The reading's `valid` flag is never consulted — exactly as in the source. -/
def hourlyStep (cid : Int) (l : List (String × HourlyAcc)) (r : DataReading) :
    List (String × HourlyAcc) :=
  let k := hourKey r.datetime
  bstep k (emptyHourlyAcc k)
    (fun a =>
      match r.channels.head? with
      | some cv => hourlyPush cid cv.value a
      | none => a) l

/-- Embedding of `arr.reduce((a, b) => a + b, 0)`. -/
def listSum (l : List Q) : Q := l.foldl (· + ·) 0

/-- Average used by the aggregators (guarded by a non-emptiness test). -/
def listAvg (l : List Q) : Q := listSum l / (l.length : Q)

/-- Embedding of `Math.min(...l)` for non-empty `l` (junk 0 on `[]`, which the source
guards against with a length test). -/
def listMin : List Q → Q
  | [] => 0
  | x :: xs => xs.foldl min x

/-- Embedding of `Math.max(...l)` for non-empty `l`. -/
def listMax : List Q → Q
  | [] => 0
  | x :: xs => xs.foldl max x

/-- Rendering one hour bucket: averages (`toFixed(1)`/`toFixed(0)`), with
rainfall summed instead of averaged; empty fields become `null`. -/
def renderHourly (a : HourlyAcc) : HourlyForecast where
  time := a.time
  temp := if a.temp.length ≠ 0 then some (toFixed1 (listAvg a.temp)) else none
  humidity :=
    if a.humidity.length ≠ 0 then some (toFixed0 (listAvg a.humidity)) else none
  windSpeed :=
    if a.windSpeed.length ≠ 0 then some (toFixed1 (listAvg a.windSpeed))
    else none
  windDir :=
    if a.windDir.length ≠ 0 then some (toFixed0 (listAvg a.windDir)) else none
  rain := if a.rain.length ≠ 0 then some (toFixed1 (listSum a.rain)) else none

/-- Embedding of `aggregateHourly` from `utils.ts`: bucket all readings of all channel
data sets by clock hour, then render and sort ascending by bucket key. -/
def aggregateHourly (channels : List ChannelDataItem) : List HourlyForecast :=
  let buckets := channels.foldl
    (fun l ch => ch.data.data.foldl (hourlyStep ch.channelId) l) []
  sortByB (fun a b => strLe a.time b.time) (buckets.map (fun p => renderHourly p.2))

/-- The empty day accumulator for a key. -/
def emptyDailyAcc (k : String) : DailyAcc := ⟨k, [], none, none, [], [], []⟩

/-- The `switch (channel.channelId)` of `aggregateDaily`: temperature
(channel 7) is collected *and* tracked as "latest reading wins"
(`readingTime > lastTempTime`, strict); humidity (8) and wind speed (4) are
collected for averaging; rain (1) for summing; other channels ignored. -/
def dailyPush (cid : Int) (t : JsDate) (v : Q) (a : DailyAcc) : DailyAcc :=
  if cid = 7 then
    let a := { a with temps := a.temps ++ [v] }
    match a.lastTempTime with
    | none => { a with lastTemp := some v, lastTempTime := some t }
    | some prev =>
        if prev.ltb t then { a with lastTemp := some v, lastTempTime := some t }
        else a
  else if cid = 8 then { a with humidity := a.humidity ++ [v] }
  else if cid = 4 then { a with windSpeed := a.windSpeed ++ [v] }
  else if cid = 1 then { a with rain := a.rain ++ [v] }
  else a

/-- Processing one reading in `aggregateDaily`; as in the source, the
`valid` flag is never consulted. -/
def dailyStep (cid : Int) (l : List (String × DailyAcc)) (r : DataReading) :
    List (String × DailyAcc) :=
  let k := dayKey r.datetime
  bstep k (emptyDailyAcc k)
    (fun a =>
      match r.channels.head? with
      | some cv => dailyPush cid r.datetime cv.value a
      | none => a) l

/-- Rendering one day bucket: `tempMin`/`tempMax` are the extrema,
`tempCurrent` is the last-observed value, humidity and wind speed are
averaged, rain is summed; empty fields become `null`. -/
def renderDaily (a : DailyAcc) : DailyForecast where
  date := a.date
  tempMin := if a.temps.length ≠ 0 then some (toFixed1 (listMin a.temps)) else none
  tempMax := if a.temps.length ≠ 0 then some (toFixed1 (listMax a.temps)) else none
  tempCurrent :=
    match a.lastTemp with
    | some v => some (toFixed1 v)
    | none => none
  humidity :=
    if a.humidity.length ≠ 0 then some (toFixed0 (listAvg a.humidity)) else none
  windSpeed :=
    if a.windSpeed.length ≠ 0 then some (toFixed1 (listAvg a.windSpeed))
    else none
  rain := if a.rain.length ≠ 0 then some (toFixed1 (listSum a.rain)) else none

/-- Embedding of `aggregateDaily` from `utils.ts`. -/
def aggregateDaily (channels : List ChannelDataItem) : List DailyForecast :=
  let buckets := channels.foldl
    (fun l ch => ch.data.data.foldl (dailyStep ch.channelId) l) []
  sortByB (fun a b => strLe a.date b.date) (buckets.map (fun p => renderDaily p.2))

/-! ## Synthetic fallback generator (`src/fallbackForecast.ts`)

`Math.random()` is modelled as a stream `rand : Nat → Q` consumed at an
explicit cursor, in the evaluation order of the source; `Math.sin` as an
ambient `jsSin : Q → Q`.  For the hourly generator the whole diurnal factor
`Math.sin((h − 6)·π/12)` is abstracted as `jsSinH : Nat → Q` because its
argument is irrational.  All theorems below hold for every such stream and
function, hence in particular for the real ones. -/

/-- The loop body of `generateFallbackDailyForecast`, one recursive step per
day (`n` = remaining days, `d` = current day, `dayIndex`, `ctr` = random
cursor).  Per iteration the source draws randoms in this order: daily
variation, humidity, wind speed, rain gate, and (only when it rains) the
rain amount. -/
def genFallbackDailyGo (baseTemp : Q) (jsSin : Q → Q) (rand : Nat → Q) :
    Nat → Int → Nat → Nat → List DailyForecast
  | 0, _, _, _ => []
  | n + 1, d, dayIndex, ctr =>
      let tempVariation := jsSin ((dayIndex : Q) * (1 / 2)) * 3
      let dailyVariation := rand ctr * 2 - 1
      let raining := rand (ctr + 3) < 1 / 5
      { date := dayToISO d
        tempMin := some (toFixed1 (baseTemp + tempVariation - 3 + dailyVariation))
        tempMax := some (toFixed1 (baseTemp + tempVariation + 5 + dailyVariation))
        tempCurrent := some (toFixed1 (baseTemp + tempVariation + dailyVariation))
        humidity := some (toFixed0 (60 + rand (ctr + 1) * 20))
        windSpeed := some (toFixed1 (2 + rand (ctr + 2) * 5))
        rain := if raining then some (toFixed1 (rand (ctr + 4) * 5)) else none } ::
        genFallbackDailyGo baseTemp jsSin rand n (d + 1) (dayIndex + 1)
          (ctr + if raining then 5 else 4)

/-- Embedding of `generateFallbackDailyForecast(fromDate, toDate, baseTemp)`: one entry
per day of the inclusive window `fromD..toD` (the `while (currentDate <= to)`
loop runs `toD − fromD + 1` times; none when the window is empty). -/
def generateFallbackDailyForecast (fromD toD : Int) (baseTemp : Q)
    (jsSin : Q → Q) (rand : Nat → Q) : List DailyForecast :=
  genFallbackDailyGo baseTemp jsSin rand (toD + 1 - fromD).toNat fromD 0 0

/-- The loop body of `generateFallbackHourlyForecast`: `n` remaining hours,
`h` = hours elapsed since `fromD` at midnight.  Randoms per iteration:
temperature jitter, humidity jitter, wind speed, wind direction, rain gate,
and (when raining) the rain amount. -/
def genFallbackHourlyGo (fromD : Int) (baseTemp : Q) (jsSinH : Nat → Q)
    (rand : Nat → Q) : Nat → Nat → Nat → List HourlyForecast
  | 0, _, _ => []
  | n + 1, h, ctr =>
      let hourOfDay := h % 24
      let dailyTempCurve := jsSinH hourOfDay * 4
      let raining := rand (ctr + 4) < 1 / 10
      { time := dayToISO (fromD + (h / 24 : Nat)) ++ " " ++ pad2 hourOfDay ++ ":00"
        temp := some (toFixed1 (baseTemp + dailyTempCurve + rand ctr * 2 - 1))
        humidity := some (toFixed0 (70 - dailyTempCurve * 2 + rand (ctr + 1) * 10))
        windSpeed := some (toFixed1 (3 + rand (ctr + 2) * 4))
        windDir := some (toFixed0 (rand (ctr + 3) * 360))
        rain := if raining then some (toFixed1 (rand (ctr + 5) * 2)) else none } ::
        genFallbackHourlyGo fromD baseTemp jsSinH rand n (h + 1)
          (ctr + if raining then 6 else 5)

/-- Embedding of `generateFallbackHourlyForecast(fromDate, toDate, baseTemp)`: one entry
per hour from `fromD` 00:00 through `toD` 23:00. -/
def generateFallbackHourlyForecast (fromD toD : Int) (baseTemp : Q)
    (jsSinH : Nat → Q) (rand : Nat → Q) : List HourlyForecast :=
  genFallbackHourlyGo fromD baseTemp jsSinH rand (24 * (toD + 1 - fromD).toNat) 0 0

/-- A forecast payload: either hourly or daily entries (the TypeScript union
`HourlyForecast[] | DailyForecast[]`). -/
inductive ForecastData where
  | hourly (items : List HourlyForecast)
  | daily (items : List DailyForecast)
  deriving DecidableEq, Repr

/-- Embedding of `forecast.length` on the union type. -/
def ForecastData.length : ForecastData → Nat
  | .hourly items => items.length
  | .daily items => items.length

/-- Embedding of `generateFallbackForecast(period, fromDate, toDate, baseTemp)`: hourly
for `'today'`, daily otherwise. -/
def generateFallbackForecast (period : String) (fromD toD : Int)
    (baseTemp : Q) (jsSin : Q → Q) (jsSinH : Nat → Q) (rand : Nat → Q) :
    ForecastData :=
  if period = "today" then
    .hourly (generateFallbackHourlyForecast fromD toD baseTemp jsSinH rand)
  else
    .daily (generateFallbackDailyForecast fromD toD baseTemp jsSin rand)

/-! ## Multi-channel station fetch (`src/imsApi.ts`) -/

/-- Embedding of `Promise.all`: resolves with the list of results, rejects with the first
rejection. -/
def promiseAll {ε α : Type} : List (Except ε α) → Except ε (List α)
  | [] => .ok []
  | .error e :: _ => .error e
  | .ok v :: rest => (promiseAll rest).map (v :: ·)

/-- Embedding of `getStationDataMultiChannel(stationId, channelIds, fromDate, toDate)`.
The per-channel upstream call `getStationData` is the environment
`fetch stationId channelId fromDate toDate` (`.error ()` = thrown/rejected).
Each per-channel promise wraps its call in `try/catch`, resolving with
`null` on failure; the batch is `Promise.all` followed by filtering out the
`null`s. -/
def getStationDataMultiChannel
    (fetch : Int → Int → String → String → Except Unit StationDataResponse)
    (stationId : Int) (channelIds : List Int) (fromDate toDate : String) :
    Except Unit (List ChannelDataItem) :=
  let dataPromises : List (Except Unit (Option ChannelDataItem)) :=
    channelIds.map (fun channelId =>
      match fetch stationId channelId fromDate toDate with
      | .ok d => .ok (some (ChannelDataItem.mk channelId d))
      | .error _ => .ok none)
  (promiseAll dataPromises).map (fun results => results.filterMap id)

/-! ## The `/api/forecast` pipeline (`src/imsApi.ts` + `forecastAdapter.ts`)

The HTTP layer, the nearest-city lookup and the XML text-extraction adapter
are external collaborators here: the handler model receives the outcome of
`getMostRecentDownloadDir` (`downloadDir`), the outcome of
`xmlParser.getCityForecast` for the resolved city (`cityForecasts`, where
`.error ()` is a thrown parse/read error), the text-extraction conversions
`xmlHourly`/`xmlDaily` (`convertToHourlyFormat`/`convertToDailyFormat`
applied to the extracted fields) and the already-awaited result `channels`
of `getStationDataMultiChannel` (which never rejects). -/

/-- A parsed feed item (`ParsedForecast` in `xmlParser.ts`). -/
structure ParsedForecast where
  title : String
  description : String
  pubDate : String
  deriving DecidableEq, Repr

/-- The body of the `/api/forecast` response, keeping the fields the claims
are about: the `source` tag and the forecast payload (the surrounding
metadata — stationId, city, period, dateRange — is pass-through). -/
structure ForecastResponse where
  source : String
  forecast : ForecastData
  deriving DecidableEq, Repr

/-- Embedding of `formatForecastResponse` from `forecastAdapter.ts`: tags the response
`source: 'xml'` and converts the parsed feed items to hourly format for
`period === 'today'`, daily otherwise (the conversions are the abstracted
text-extraction adapter). -/
def formatForecastResponse
    (xmlHourly : List ParsedForecast → List HourlyForecast)
    (xmlDaily : List ParsedForecast → List DailyForecast)
    (period : Option String) (forecasts : List ParsedForecast) :
    ForecastResponse :=
  { source := "xml"
    forecast :=
      if period = some "today" then .hourly (xmlHourly forecasts)
      else .daily (xmlDaily forecasts) }

/-- JavaScript `period || 'today'` on the query parameter: the default kicks
in when the parameter is absent or the empty string (falsy). -/
def periodOrToday (period : Option String) : String :=
  match period with
  | some p => if p = "" then "today" else p
  | none => "today"

/-- The date window the `/api/forecast` endpoint requests:
`utils.getForecastDateRange(period || 'today')` — the forward-looking
convention. -/
def forecastWindow (today : Int) (period : Option String) : DateRange :=
  getForecastDateRange today (periodOrToday period)

/-- The `GET /api/forecast` handler body from `imsApi.ts`, after the station
has been resolved (`today` is the current UTC day):

1. `dateRange := getForecastDateRange(period || 'today')`;
2. feed tier: if a download directory exists and `getCityForecast` returns a
   non-empty list, answer via `formatForecastResponse` (`source: 'xml'`);
   a thrown `getCityForecast` error only falls through;
3. observation tier: aggregate `channels` hourly for `period === 'today'`,
   daily otherwise;
4. coverage check: `expectedDays := ceil((to − from)/day) + 1` (the dates
   are midnights, so this is `toD − fromD + 1`); if the period is not
   `'today'` and the aggregate has fewer than `min(3, expectedDays)`
   entries, replace it by `generateFallbackForecast(period || 'today', from,
   to, 20)`;
5. answer with `source: 'station'` in both fallback cases. -/
def handleForecast (today : Int) (period : Option String)
    (downloadDir : Option String)
    (cityForecasts : Except Unit (List ParsedForecast))
    (xmlHourly : List ParsedForecast → List HourlyForecast)
    (xmlDaily : List ParsedForecast → List DailyForecast)
    (channels : List ChannelDataItem)
    (jsSin : Q → Q) (jsSinH : Nat → Q) (rand : Nat → Q) : ForecastResponse :=
  let periodV := periodOrToday period
  let rng := forecastWindow today period
  let feedAnswer : Option ForecastResponse :=
    match downloadDir with
    | some _ =>
        match cityForecasts with
        | .ok cf =>
            if cf.length > 0 then
              some (formatForecastResponse xmlHourly xmlDaily period cf)
            else none
        | .error _ => none
    | none => none
  match feedAnswer with
  | some resp => resp
  | none =>
      let forecast : ForecastData :=
        if period = some "today" then .hourly (aggregateHourly channels)
        else .daily (aggregateDaily channels)
      let expectedDays : Int := rng.toD - rng.fromD + 1
      let forecast :=
        if period ≠ some "today" ∧ (forecast.length : Int) < min 3 expectedDays
        then generateFallbackForecast periodV rng.fromD rng.toD 20 jsSin jsSinH rand
        else forecast
      { source := "station", forecast := forecast }

/-- The feed-tier hit condition of the handler: a download directory exists
and `getCityForecast` returned a non-empty parsed list (a thrown error or an
empty list falls through). -/
def feedHit (downloadDir : Option String)
    (cityForecasts : Except Unit (List ParsedForecast)) : Bool :=
  downloadDir.isSome &&
    (match cityForecasts with
     | .ok cf => decide (cf.length > 0)
     | .error _ => false)

/-- A cache state holding one entry, in both tiers, under key `k`. -/
def singletonCacheState (k : String) (data : JsVal) (ts : Int) : CacheState :=
  ⟨[(k, ⟨data, ts⟩)], [(k, ⟨data, ts⟩)]⟩

/-- Transformation of a channel data set that changes *only* the validity
flags of the readings (by an arbitrary function of the old flag). -/
def mapValidity (g : Bool → Bool) (channels : List ChannelDataItem) :
    List ChannelDataItem :=
  channels.map (fun ch =>
    { ch with data := { ch.data with data := ch.data.data.map (fun r =>
        { r with channels := r.channels.map (fun cv =>
            { cv with valid := g cv.valid }) }) } })

/-- The value a reading contributes: the `value` of `reading.channels[0]`,
when present. -/
def vOf (r : DataReading) : Option Q :=
  r.channels.head?.map (fun cv => cv.value)

/-- The effect of one reading on its (already existing) day bucket. -/
def dailyReadingStep (cid : Int) (a : DailyAcc) (r : DataReading) : DailyAcc :=
  match r.channels.head? with
  | some cv => dailyPush cid r.datetime cv.value a
  | none => a

/-! ## Supporting lemmas -/

theorem tget_nil (k : String) : tget [] k = none := rfl

theorem tget_cons_self (k : String) (e : CacheEntry) (t : Table) :
    tget ((k, e) :: t) k = some e := by
  simp [tget, List.find?]

theorem tget_cons_ne {k' k : String} (e : CacheEntry) (t : Table)
    (h : ¬ k' = k) : tget ((k', e) :: t) k = tget t k := by
  simp [tget, List.find?, h]

theorem tset_nil (k : String) (e : CacheEntry) : tset [] k e = [(k, e)] := rfl

theorem tset_cons_self (k : String) (e e' : CacheEntry) (t : Table) :
    tset ((k, e') :: t) k e = (k, e) :: t := by
  simp [tset]

theorem terase_nil (k : String) : terase [] k = [] := rfl

theorem terase_cons_self (k : String) (e : CacheEntry) :
    terase [(k, e)] k = [] := by
  simp [terase]

/-! ## Claim C10 — forecast cache keys collide across distinct params -/

/-- C10: cache key derivation for the forecast domain type is not injective:
`{stationId: "1_2", from: "3", to: "4"}` and `{stationId: "1", from: "2_3",
to: "4"}` both map to `"forecast_1_2_3_4"`, and consequently a value stored
under the first parameter set is returned by a `get` with the second. -/
theorem forecast_cache_key_collision :
    getCacheKey .forecast ⟨some "1_2", some "3", some "4"⟩ =
      some "forecast_1_2_3_4" ∧
    getCacheKey .forecast ⟨some "1", some "2_3", some "4"⟩ =
      some "forecast_1_2_3_4" ∧
    (⟨some "1_2", some "3", some "4"⟩ : CacheParams) ≠
      ⟨some "1", some "2_3", some "4"⟩ ∧
    (cacheGet
        (cacheSet emptyCacheState .forecast (.vStr "A")
          ⟨some "1_2", some "3", some "4"⟩ 0)
        .forecast ⟨some "1", some "2_3", some "4"⟩ none none 0).result =
      .ok (.vStr "A") := by
  refine ⟨by decide, by decide, by decide, by decide⟩

/-! ## Claim C3 — cache expiry invariant -/

/-- Counterexample to C3 as stated: a *falsy* stored value is not returned
even when perfectly fresh.  `set` stores the number `0` at time 1000; a
`get` at the same instant (age `0 ≤ duration`) returns `null` rather than
the stored value, because `cache.get` tests the tier results for JS
truthiness (`if (memoryData)` / `if (fileData)`). -/
theorem cache_falsy_value_fresh_miss_cex :
    tget (cacheSet emptyCacheState .forecast (.vNum 0)
        ⟨some "1", some "2", some "3"⟩ 1000).memoryCache "forecast_1_2_3" =
      some ⟨.vNum 0, 1000⟩ ∧
    (cacheGet
        (cacheSet emptyCacheState .forecast (.vNum 0)
          ⟨some "1", some "2", some "3"⟩ 1000)
        .forecast ⟨some "1", some "2", some "3"⟩ none none 1000).result =
      .ok .vNull ∧
    (cacheGet
        (cacheSet emptyCacheState .forecast (.vNum 0)
          ⟨some "1", some "2", some "3"⟩ 1000)
        .forecast ⟨some "1", some "2", some "3"⟩ none none 1000).result ≠
      .ok (.vNum 0) := by
  refine ⟨by decide, by decide, by decide⟩

/-! ## Claim C4 — null/empty producer results -/

/-- Counterexample to C4 as stated: a producer returning `null` has its
result written to both tiers, but a later `get` within the expiry window
treats the stored `null` as a miss and *re-invokes* the producer, returning
the new value instead of the stored one. -/
theorem cache_null_result_refetch_cex :
    tget (cacheGet emptyCacheState .forecast ⟨some "1", none, none⟩
        (some (.ok .vNull)) none 0).state.memoryCache
        "forecast_1_undefined_undefined" = some ⟨.vNull, 0⟩ ∧
    tget (cacheGet emptyCacheState .forecast ⟨some "1", none, none⟩
        (some (.ok .vNull)) none 0).state.fileCache
        "forecast_1_undefined_undefined" = some ⟨.vNull, 0⟩ ∧
    (cacheGet
        (cacheGet emptyCacheState .forecast ⟨some "1", none, none⟩
          (some (.ok .vNull)) none 0).state
        .forecast ⟨some "1", none, none⟩ (some (.ok (.vStr "fresh"))) none
        1000).producerInvoked = true ∧
    (cacheGet
        (cacheGet emptyCacheState .forecast ⟨some "1", none, none⟩
          (some (.ok .vNull)) none 0).state
        .forecast ⟨some "1", none, none⟩ (some (.ok (.vStr "fresh"))) none
        1000).result = .ok (.vStr "fresh") := by
  refine ⟨by decide, by decide, by decide, by decide⟩

/-! ## Claim C5 — producer failure -/

/-- Counterexample to C5's "the cache state is unchanged on producer
failure": with a fresh durable-tier entry holding `null` (which the cache
happily writes, cf. C4) and an empty memory tier, a `get` whose producer
throws still *writes* that value into the memory tier (the file-tier read
re-populates memory before the truthiness test fails), so the state
differs from the initial one even though the error propagated. -/
theorem producer_error_state_changed_cex :
    (cacheGet ⟨[], [("stations_list", ⟨.vNull, 0⟩)]⟩ .stations ⟨none, none, none⟩
        (some (.error ())) none 500).result = .error () ∧
    (cacheGet ⟨[], [("stations_list", ⟨.vNull, 0⟩)]⟩ .stations ⟨none, none, none⟩
        (some (.error ())) none 500).state.memoryCache =
      [("stations_list", ⟨.vNull, 500⟩)] ∧
    (cacheGet ⟨[], [("stations_list", ⟨.vNull, 0⟩)]⟩ .stations ⟨none, none, none⟩
        (some (.error ())) none 500).state ≠
      ⟨[], [("stations_list", ⟨.vNull, 0⟩)]⟩ := by
  refine ⟨by decide, by decide, by decide⟩

/-! ## Claim C6 — validity flag -/

/-- Counterexample to C6 as stated: a single reading flagged `valid: false`
(value 100, channel 7 = temperature) contributes its value to the day
bucket's min, max and current, and likewise to the hour bucket's average —
neither aggregator ever consults the flag. -/
theorem invalid_reading_contributes_cex :
    aggregateDaily
        [⟨7, ⟨178, 7, [⟨⟨2026, 2, 10, 8, 0⟩, [⟨100, "<", false⟩]⟩]⟩⟩] =
      [⟨"2026-02-10", some "100.0", some "100.0", some "100.0", none, none,
        none⟩] ∧
    aggregateHourly
        [⟨7, ⟨178, 7, [⟨⟨2026, 2, 10, 8, 0⟩, [⟨100, "<", false⟩]⟩]⟩⟩] =
      [⟨"2026-02-10 08:00", some "100.0", none, none, none, none⟩] := by
  refine ⟨by decide, by decide⟩

/-! ## Claim C1 — source tagging -/

/-- Counterexample to C1 as stated: with no feed available and no
observations at all (`channels = []`, so the aggregate is empty and the
synthetic generator supplies all 7 entries of the week window), the
response is tagged `source = "station"`, not `source = "synthetic"`; and a
successful feed lookup is tagged `source = "xml"`, not `source = "feed"`. -/
theorem source_tag_literals_cex :
    (handleForecast 20493 (some "week") none (.error ()) (fun _ => [])
        (fun _ => []) [] (fun _ => 0) (fun _ => 0) (fun _ => 0)).source =
      "station" ∧
    (handleForecast 20493 (some "week") none (.error ()) (fun _ => [])
        (fun _ => []) [] (fun _ => 0) (fun _ => 0) (fun _ => 0)).forecast.length
      = 7 ∧
    aggregateDaily ([] : List ChannelDataItem) = [] ∧
    (handleForecast 20493 (some "week") none (.error ()) (fun _ => [])
        (fun _ => []) [] (fun _ => 0) (fun _ => 0) (fun _ => 0)).source ≠
      "synthetic" ∧
    (handleForecast 20493 (some "week") (some "/xml") (.ok [⟨"t", "d", "p"⟩])
        (fun _ => []) (fun _ => []) [] (fun _ => 0) (fun _ => 0)
        (fun _ => 0)).source = "xml" ∧
    (handleForecast 20493 (some "week") (some "/xml") (.ok [⟨"t", "d", "p"⟩])
        (fun _ => []) (fun _ => []) [] (fun _ => 0) (fun _ => 0)
        (fun _ => 0)).source ≠ "feed" := by
  refine ⟨by decide, by decide, by decide, by decide, by decide, by decide⟩

/-- C1 (amended): the handler tags the response with the tier that produced
it only at feed granularity: `source = "xml"` when the feed lookup for the
resolved region succeeds with a non-empty parsed list, and
`source = "station"` otherwise — both when aggregated observations are
served and when the synthetic generator supplies the data.  The literal
tags `"feed"` / `"observations"` / `"synthetic"` are never produced. -/
theorem source_tag_xml_or_station (today : Int) (period : Option String)
    (dl : Option String) (cfr : Except Unit (List ParsedForecast))
    (xh : List ParsedForecast → List HourlyForecast)
    (xd : List ParsedForecast → List DailyForecast)
    (channels : List ChannelDataItem)
    (jsSin : Q → Q) (jsSinH : Nat → Q) (rand : Nat → Q) :
    (handleForecast today period dl cfr xh xd channels jsSin jsSinH
        rand).source = if feedHit dl cfr then "xml" else "station" := by
  cases dl with
  | none => simp [handleForecast, feedHit]
  | some d =>
      cases cfr with
      | error e => simp [handleForecast, feedHit]
      | ok cf =>
          by_cases h : cf.length > 0
          · simp [handleForecast, feedHit, h, formatForecastResponse]
          · simp [handleForecast, feedHit, h]

/-- C8: the two window conventions of the date-range utilities, and the
spans behind "short ≈ 2 days, medium ≈ 7 days, long ≈ 30 days" (the code
periods are `'today'`/`'week'`/`'month'`): every backward-looking
historical window ends at today, with `from` offsets −2/−7/−30; every
forward-looking forecast window starts at today, with inclusive lengths
2/7/30; and the `/api/forecast` endpoint's window (`forecastWindow`, the
range `handleForecast` computes) uses the forward-looking convention for
every period value. -/
theorem date_range_conventions (today : Int) :
    (∀ p : String, (getDateRange today p).toD = today) ∧
    (∀ p : String, (getForecastDateRange today p).fromD = today) ∧
    (∀ period : Option String, (forecastWindow today period).fromD = today) ∧
    getDateRange today "today" = ⟨today - 2, today⟩ ∧
    getDateRange today "week" = ⟨today - 7, today⟩ ∧
    getDateRange today "month" = ⟨today - 30, today⟩ ∧
    getForecastDateRange today "today" = ⟨today, today + 1⟩ ∧
    getForecastDateRange today "week" = ⟨today, today + 6⟩ ∧
    getForecastDateRange today "month" = ⟨today, today + 29⟩ := by
  refine ⟨fun p => ?_, fun p => ?_, fun period => ?_, rfl, ?_, ?_, rfl, ?_, ?_⟩
  · unfold getDateRange; split_ifs <;> rfl
  · unfold getForecastDateRange; split_ifs <;> rfl
  · unfold forecastWindow getForecastDateRange; split_ifs <;> rfl
  · unfold getDateRange; rfl
  · unfold getDateRange; rfl
  · unfold getForecastDateRange; rfl
  · unfold getForecastDateRange; rfl

/-- C5 (amended): a throwing producer is propagated to the cache caller and
nothing it did is cached — the state after the failed call is *exactly* the
state produced by the same lookup with no producer at all (which may still
lazily evict expired entries, or promote a falsy durable-tier value into
memory, but records nothing about the failed fetch). -/
theorem producer_error_uncached (st : CacheState) (ty : CacheType)
    (params : CacheParams) (durationOpt : Option Int) (now : Int) :
    (cacheGet st ty params (some (.error ())) durationOpt now).state =
      (cacheGet st ty params none durationOpt now).state ∧
    ((cacheGet st ty params (some (.error ())) durationOpt
        now).producerInvoked = true →
      (cacheGet st ty params (some (.error ())) durationOpt now).result =
        .error ()) := by
  cases hk : getCacheKey ty params with
  | none => exact ⟨by simp [cacheGet, hk], by simp [cacheGet, hk]⟩
  | some key =>
      constructor
      · simp only [cacheGet, hk]
        split
        · rfl
        · split
          · rfl
          · rfl
      · simp only [cacheGet, hk]
        split
        · intro h; simp at h
        · split
          · intro h; simp at h
          · intro _; rfl

/-- Witness for C5's theorem at a concrete input: on an empty cache the
producer runs, its error propagates, and the state equals that of a
producer-less lookup. -/
theorem producer_error_uncached_witness :
    (cacheGet emptyCacheState .stations ⟨none, none, none⟩ (some (.error ()))
        none 0).result = .error () ∧
    (cacheGet emptyCacheState .stations ⟨none, none, none⟩ (some (.error ()))
        none 0).state =
      (cacheGet emptyCacheState .stations ⟨none, none, none⟩ none none
        0).state :=
  ⟨(producer_error_uncached emptyCacheState .stations ⟨none, none, none⟩ none
      0).2 (by decide),
   (producer_error_uncached emptyCacheState .stations ⟨none, none, none⟩ none
      0).1⟩

theorem cacheDurations_nonneg (ty : CacheType) : 0 ≤ CACHE_DURATIONS ty := by
  cases ty <;> decide

/-- C3 (amended): for a *truthy* stored value, `get` returns it iff
`now − timestamp ≤ duration` (the configured default duration for the
domain type); once expired, `get` treats the entry as absent and lazily
evicts it from both tiers (in particular the durable store is cleaned at
read time); a subsequent `set` and a subsequent producer fetch each
re-populate both tiers.  (Falsy stored values — `null`, `0`, `""` — are
treated as absent even when fresh; see the counterexample.) -/
theorem cache_truthy_entry_valid_iff (ty : CacheType) (params : CacheParams)
    (k : String) (hk : getCacheKey ty params = some k) (data : JsVal)
    (htr : data.truthy = true) (ts now : Int) (v : JsVal) :
    ((cacheGet (singletonCacheState k data ts) ty params none none
        now).result = .ok data ↔ now - ts ≤ CACHE_DURATIONS ty) ∧
    (CACHE_DURATIONS ty < now - ts →
      (cacheGet (singletonCacheState k data ts) ty params none none
        now).state = emptyCacheState) ∧
    (cacheGet (cacheSet emptyCacheState ty data params now) ty params none
        none now).result = .ok data ∧
    (CACHE_DURATIONS ty < now - ts →
      (cacheGet
          (cacheGet (singletonCacheState k data ts) ty params none none
            now).state ty params (some (.ok v)) none now).result = .ok v ∧
      tget (cacheGet
          (cacheGet (singletonCacheState k data ts) ty params none none
            now).state ty params (some (.ok v)) none now).state.memoryCache
        k = some ⟨v, now⟩ ∧
      tget (cacheGet
          (cacheGet (singletonCacheState k data ts) ty params none none
            now).state ty params (some (.ok v)) none now).state.fileCache
        k = some ⟨v, now⟩) := by
  have hdur : 0 ≤ CACHE_DURATIONS ty := cacheDurations_nonneg ty
  have hdata : data ≠ .vNull := by
    intro he; rw [he] at htr; simp [JsVal.truthy] at htr
  have hset : cacheGet (cacheSet emptyCacheState ty data params now) ty
      params none none now = ⟨.ok data, singletonCacheState k data now,
        false⟩ := by
    have hexp : isExpired now (CACHE_DURATIONS ty) now = false := by
      simp only [isExpired, decide_eq_false_iff_not, not_lt]; omega
    simp [cacheSet, cacheGet, hk, getFromMemory, getFromFile, setInMemory,
      setInFile, emptyCacheState, singletonCacheState, tset, tget_cons_self,
      hexp, htr]
  by_cases hfr : now - ts ≤ CACHE_DURATIONS ty
  · have hexp : isExpired ts (CACHE_DURATIONS ty) now = false := by
      simp only [isExpired, decide_eq_false_iff_not, not_lt]; omega
    have hr : cacheGet (singletonCacheState k data ts) ty params none none
        now = ⟨.ok data, singletonCacheState k data ts, false⟩ := by
      simp [cacheGet, hk, getFromMemory, singletonCacheState, tget_cons_self,
        hexp, htr]
    refine ⟨?_, ?_, ?_, ?_⟩
    · rw [hr]; simpa using hfr
    · intro hlt; omega
    · rw [hset]
    · intro hlt; omega
  · have hexp : isExpired ts (CACHE_DURATIONS ty) now = true := by
      simp only [isExpired, decide_eq_true_eq]; omega
    have hr : cacheGet (singletonCacheState k data ts) ty params none none
        now = ⟨.ok .vNull, emptyCacheState, false⟩ := by
      simp [cacheGet, hk, getFromMemory, getFromFile, singletonCacheState,
        tget_cons_self, hexp, terase, emptyCacheState, JsVal.truthy]
    have hprod : cacheGet emptyCacheState ty params (some (.ok v)) none now =
        ⟨.ok v, singletonCacheState k v now, true⟩ := by
      simp [cacheGet, hk, getFromMemory, getFromFile, emptyCacheState,
        setInMemory, setInFile, tset, tget, JsVal.truthy, singletonCacheState]
    refine ⟨?_, ?_, ?_, ?_⟩
    · rw [hr]
      simp only [GetResult.result]
      constructor
      · intro he
        exact absurd (Except.ok.inj he).symm hdata
      · intro hle; omega
    · intro _; rw [hr]
    · rw [hset]
    · intro _
      rw [hr]
      simp only [GetResult.state]
      rw [hprod]
      exact ⟨rfl, by simp [singletonCacheState, tget_cons_self],
        by simp [singletonCacheState, tget_cons_self]⟩

/-- Witness for C3's theorem at a concrete input: a truthy stations-list
value stored at time 0, read at a time far past the 48 h expiry. -/
theorem cache_truthy_entry_valid_iff_witness :
    ((cacheGet (singletonCacheState "stations_list" (.vArr []) 0) .stations
        ⟨none, none, none⟩ none none 1000000000).result = .ok (.vArr []) ↔
      (1000000000 : Int) - 0 ≤ CACHE_DURATIONS .stations) ∧
    (CACHE_DURATIONS .stations < (1000000000 : Int) - 0 →
      (cacheGet (singletonCacheState "stations_list" (.vArr []) 0) .stations
        ⟨none, none, none⟩ none none 1000000000).state = emptyCacheState) ∧
    (cacheGet (cacheSet emptyCacheState .stations (.vArr [])
        ⟨none, none, none⟩ 1000000000) .stations ⟨none, none, none⟩ none
        none 1000000000).result = .ok (.vArr []) ∧
    (CACHE_DURATIONS .stations < (1000000000 : Int) - 0 →
      (cacheGet
          (cacheGet (singletonCacheState "stations_list" (.vArr []) 0)
            .stations ⟨none, none, none⟩ none none 1000000000).state
          .stations ⟨none, none, none⟩ (some (.ok (.vStr "fresh"))) none
          1000000000).result = .ok (.vStr "fresh") ∧
      tget (cacheGet
          (cacheGet (singletonCacheState "stations_list" (.vArr []) 0)
            .stations ⟨none, none, none⟩ none none 1000000000).state
          .stations ⟨none, none, none⟩ (some (.ok (.vStr "fresh"))) none
          1000000000).state.memoryCache "stations_list" =
        some ⟨.vStr "fresh", 1000000000⟩ ∧
      tget (cacheGet
          (cacheGet (singletonCacheState "stations_list" (.vArr []) 0)
            .stations ⟨none, none, none⟩ none none 1000000000).state
          .stations ⟨none, none, none⟩ (some (.ok (.vStr "fresh"))) none
          1000000000).state.fileCache "stations_list" =
        some ⟨.vStr "fresh", 1000000000⟩) :=
  cache_truthy_entry_valid_iff .stations ⟨none, none, none⟩ "stations_list"
    (by decide) (.vArr []) (by decide) 0 1000000000 (.vStr "fresh")

/-- C4 (amended): any producer result — including `null` and empty values —
is written to both cache tiers.  A later `get` within the expiry window
returns the stored value without re-invoking the producer *only when the
value is truthy* (e.g. an array, even an empty one); a falsy stored value
(`null`, `0`, `""`) is treated as a miss and the producer, when supplied,
is re-invoked, so "producer returned nothing" is indistinguishable from
"no entry" at read time when the nothing is falsy. -/
theorem cache_producer_result_cached (ty : CacheType) (params : CacheParams)
    (k : String) (hk : getCacheKey ty params = some k) (data : JsVal)
    (now now2 : Int) (hfr : now2 - now ≤ CACHE_DURATIONS ty)
    (fet2 : Option (Except Unit JsVal)) :
    (cacheGet emptyCacheState ty params (some (.ok data)) none now).result =
      .ok data ∧
    (cacheGet emptyCacheState ty params (some (.ok data)) none
      now).producerInvoked = true ∧
    (cacheGet emptyCacheState ty params (some (.ok data)) none now).state =
      singletonCacheState k data now ∧
    (data.truthy = true →
      (cacheGet (singletonCacheState k data now) ty params fet2 none
          now2).result = .ok data ∧
      (cacheGet (singletonCacheState k data now) ty params fet2 none
          now2).producerInvoked = false) ∧
    (data.truthy = false →
      (cacheGet (singletonCacheState k data now) ty params fet2 none
          now2).producerInvoked = fet2.isSome) := by
  have hexp : isExpired now (CACHE_DURATIONS ty) now2 = false := by
    simp only [isExpired, decide_eq_false_iff_not, not_lt]; omega
  have h1 : cacheGet emptyCacheState ty params (some (.ok data)) none now =
      ⟨.ok data, singletonCacheState k data now, true⟩ := by
    simp [cacheGet, hk, getFromMemory, getFromFile, emptyCacheState,
      setInMemory, setInFile, tset, tget, JsVal.truthy, singletonCacheState]
  refine ⟨by rw [h1], by rw [h1], by rw [h1], ?_, ?_⟩
  · intro htr
    have h2 : cacheGet (singletonCacheState k data now) ty params fet2 none
        now2 = ⟨.ok data, singletonCacheState k data now, false⟩ := by
      simp [cacheGet, hk, getFromMemory, singletonCacheState, tget_cons_self,
        hexp, htr]
    rw [h2]
    exact ⟨rfl, rfl⟩
  · intro hfalsy
    cases fet2 with
    | none =>
        simp [cacheGet, hk, getFromMemory, getFromFile, singletonCacheState,
          tget_cons_self, hexp, hfalsy, setInMemory, tset]
    | some x =>
        cases x with
        | ok w =>
            simp [cacheGet, hk, getFromMemory, getFromFile,
              singletonCacheState, tget_cons_self, hexp, hfalsy, setInMemory,
              setInFile, tset]
        | error e =>
            simp [cacheGet, hk, getFromMemory, getFromFile,
              singletonCacheState, tget_cons_self, hexp, hfalsy, setInMemory,
              setInFile, tset]

/-- Witness for C4's theorem at a concrete input: an *empty array* produced
at time 0 is stored in both tiers and served from cache at time 1000
without re-invoking the producer. -/
theorem cache_producer_result_cached_witness :
    (cacheGet emptyCacheState .forecast ⟨some "9", some "a", some "b"⟩
        (some (.ok (.vArr []))) none 0).result = .ok (.vArr []) ∧
    (cacheGet emptyCacheState .forecast ⟨some "9", some "a", some "b"⟩
        (some (.ok (.vArr []))) none 0).producerInvoked = true ∧
    (cacheGet emptyCacheState .forecast ⟨some "9", some "a", some "b"⟩
        (some (.ok (.vArr []))) none 0).state =
      singletonCacheState "forecast_9_a_b" (.vArr []) 0 ∧
    ((JsVal.vArr []).truthy = true →
      (cacheGet (singletonCacheState "forecast_9_a_b" (.vArr []) 0) .forecast
          ⟨some "9", some "a", some "b"⟩ (some (.ok (.vStr "other"))) none
          1000).result = .ok (.vArr []) ∧
      (cacheGet (singletonCacheState "forecast_9_a_b" (.vArr []) 0) .forecast
          ⟨some "9", some "a", some "b"⟩ (some (.ok (.vStr "other"))) none
          1000).producerInvoked = false) ∧
    ((JsVal.vArr []).truthy = false →
      (cacheGet (singletonCacheState "forecast_9_a_b" (.vArr []) 0) .forecast
          ⟨some "9", some "a", some "b"⟩ (some (.ok (.vStr "other"))) none
          1000).producerInvoked =
        (some (Except.ok (JsVal.vStr "other")) :
          Option (Except Unit JsVal)).isSome) :=
  cache_producer_result_cached .forecast ⟨some "9", some "a", some "b"⟩
    "forecast_9_a_b" (by decide) (.vArr []) 0 1000 (by decide)
    (some (.ok (.vStr "other")))

theorem promiseAll_all_ok {ε α β : Type} (g : β → α) (l : List β) :
    promiseAll (l.map (fun x => (Except.ok (g x) : Except ε α))) =
      .ok (l.map g) := by
  induction l with
  | nil => rfl
  | cons x xs ih => simp [promiseAll, ih, Except.map]

/-- C9: `getStationDataMultiChannel` never rejects because of a per-channel
failure — it resolves with exactly the channels whose fetch succeeded, in
order, and with the empty list when every channel fails. -/
theorem multi_channel_drops_failures
    (fetch : Int → Int → String → String → Except Unit StationDataResponse)
    (stationId : Int) (channelIds : List Int) (fromDate toDate : String) :
    getStationDataMultiChannel fetch stationId channelIds fromDate toDate =
      .ok (channelIds.filterMap (fun cid =>
        match fetch stationId cid fromDate toDate with
        | .ok d => some ⟨cid, d⟩
        | .error _ => none)) ∧
    ((∀ cid ∈ channelIds, fetch stationId cid fromDate toDate = .error ()) →
      getStationDataMultiChannel fetch stationId channelIds fromDate toDate =
        .ok []) ∧
    (∀ cid d, (⟨cid, d⟩ : ChannelDataItem) ∈ channelIds.filterMap (fun c =>
        match fetch stationId c fromDate toDate with
        | .ok dd => some ⟨c, dd⟩
        | .error _ => none) ↔
      cid ∈ channelIds ∧ fetch stationId cid fromDate toDate = .ok d) := by
  have hfun : (fun cid => (match fetch stationId cid fromDate toDate with
      | .ok d => .ok (some (ChannelDataItem.mk cid d))
      | .error _ => .ok none : Except Unit (Option ChannelDataItem))) =
      fun cid => Except.ok (match fetch stationId cid fromDate toDate with
        | .ok d => some (ChannelDataItem.mk cid d)
        | .error _ => none) := by
    funext cid
    cases fetch stationId cid fromDate toDate <;> rfl
  have hmain : getStationDataMultiChannel fetch stationId channelIds fromDate
      toDate = .ok (channelIds.filterMap (fun cid =>
        match fetch stationId cid fromDate toDate with
        | .ok d => some ⟨cid, d⟩
        | .error _ => none)) := by
    unfold getStationDataMultiChannel
    simp only [hfun, promiseAll_all_ok, Except.map, List.filterMap_map,
      Function.id_comp]
  refine ⟨hmain, ?_, ?_⟩
  · intro hall
    rw [hmain]
    have : channelIds.filterMap (fun cid =>
        match fetch stationId cid fromDate toDate with
        | .ok d => some (ChannelDataItem.mk cid d)
        | .error _ => none) = [] := by
      rw [List.filterMap_eq_nil_iff]
      intro cid hc
      rw [hall cid hc]
    rw [this]
  · intro cid d
    constructor
    · intro hmem
      rcases List.mem_filterMap.1 hmem with ⟨c, hc, hsome⟩
      cases hf : fetch stationId c fromDate toDate with
      | ok dd =>
          rw [hf] at hsome
          have h1 := ChannelDataItem.mk.inj (Option.some.inj hsome)
          exact ⟨h1.1 ▸ hc, by rw [h1.1] at hf; rw [hf, h1.2]⟩
      | error e => rw [hf] at hsome; cases hsome
    · intro ⟨hc, hf⟩
      exact List.mem_filterMap.2 ⟨cid, hc, by rw [hf]⟩

/-- Witness for C9's theorem at a concrete input: channel 2 succeeds while
1 and 3 fail and are dropped; a batch where every channel fails resolves
with the empty list. -/
theorem multi_channel_drops_failures_witness :
    getStationDataMultiChannel
        (fun s c _ _ => if c % 2 = 0 then .ok ⟨s, c, []⟩ else .error ()) 1
        [1, 2, 3] "f" "t" = .ok [⟨2, ⟨1, 2, []⟩⟩] ∧
    getStationDataMultiChannel (fun _ _ _ _ => .error ()) 1 [1, 2, 3] "f" "t"
      = .ok [] :=
  ⟨((multi_channel_drops_failures
      (fun s c _ _ => if c % 2 = 0 then .ok ⟨s, c, []⟩ else .error ()) 1
      [1, 2, 3] "f" "t").1).trans (by decide),
   (multi_channel_drops_failures (fun _ _ _ _ => .error ()) 1 [1, 2, 3] "f"
      "t").2.1 (by decide)⟩

theorem foldl_fun_congr {α β : Type} (f g : α → β → α) (l : List β)
    (h : ∀ a b, f a b = g a b) : ∀ a, l.foldl f a = l.foldl g a := by
  induction l with
  | nil => intro a; rfl
  | cons x xs ih =>
      intro a
      simp only [List.foldl_cons]
      rw [h]
      exact ih _

theorem hourlyStep_mapValidity (g : Bool → Bool) (cid : Int)
    (l : List (String × HourlyAcc)) (r : DataReading) :
    hourlyStep cid l { r with channels := r.channels.map (fun cv =>
        { cv with valid := g cv.valid }) } = hourlyStep cid l r := by
  obtain ⟨dt, chs⟩ := r
  cases chs <;> rfl

theorem dailyStep_mapValidity (g : Bool → Bool) (cid : Int)
    (l : List (String × DailyAcc)) (r : DataReading) :
    dailyStep cid l { r with channels := r.channels.map (fun cv =>
        { cv with valid := g cv.valid }) } = dailyStep cid l r := by
  obtain ⟨dt, chs⟩ := r
  cases chs <;> rfl

/-- C6 (amended): neither aggregator consults the validity flag — the
output is invariant under *arbitrary* changes of the readings' `valid`
flags, so a reading with `validity = false` contributes to its bucket
exactly like a valid one (see the counterexample for a concrete instance). -/
theorem aggregate_ignores_validity (g : Bool → Bool)
    (channels : List ChannelDataItem) :
    aggregateHourly (mapValidity g channels) = aggregateHourly channels ∧
    aggregateDaily (mapValidity g channels) = aggregateDaily channels := by
  constructor
  · unfold aggregateHourly mapValidity
    rw [List.foldl_map]
    rw [foldl_fun_congr _ (fun l ch =>
        ch.data.data.foldl (hourlyStep ch.channelId) l) channels ?_ []]
    intro l ch
    show (ch.data.data.map _).foldl (hourlyStep ch.channelId) l = _
    rw [List.foldl_map]
    exact foldl_fun_congr _ _ ch.data.data
      (fun a r => hourlyStep_mapValidity g ch.channelId a r) l
  · unfold aggregateDaily mapValidity
    rw [List.foldl_map]
    rw [foldl_fun_congr _ (fun l ch =>
        ch.data.data.foldl (dailyStep ch.channelId) l) channels ?_ []]
    intro l ch
    show (ch.data.data.map _).foldl (dailyStep ch.channelId) l = _
    rw [List.foldl_map]
    exact foldl_fun_congr _ _ ch.data.data
      (fun a r => dailyStep_mapValidity g ch.channelId a r) l

theorem genFallbackDailyGo_length (b : Q) (s : Q → Q) (r : Nat → Q) :
    ∀ (n : Nat) (d : Int) (i c : Nat),
      (genFallbackDailyGo b s r n d i c).length = n := by
  intro n
  induction n with
  | zero => intro d i c; rfl
  | succ m ih =>
      intro d i c
      simp [genFallbackDailyGo, ih]

theorem genFallbackDailyGo_dates (b : Q) (s : Q → Q) (r : Nat → Q) :
    ∀ (n : Nat) (d : Int) (i c : Nat),
      (genFallbackDailyGo b s r n d i c).map (fun e => e.date) =
        (List.range n).map (fun j => dayToISO (d + Int.ofNat j)) := by
  intro n
  induction n with
  | zero => intro d i c; rfl
  | succ m ih =>
      intro d i c
      simp only [genFallbackDailyGo, List.map_cons, ih,
        List.range_succ_eq_map, List.map_map]
      congr 1
      · congr 1
        simp
      · apply List.map_congr_left
        intro j hj
        simp only [Function.comp]
        congr 1
        simp [Int.ofNat_succ]
        ring

theorem genFallbackDailyGo_temp_some (b : Q) (s : Q → Q) (r : Nat → Q) :
    ∀ (n : Nat) (d : Int) (i c : Nat),
      ∀ e ∈ genFallbackDailyGo b s r n d i c,
        e.tempMin.isSome = true ∧ e.tempMax.isSome = true := by
  intro n
  induction n with
  | zero => intro d i c e he; cases he
  | succ m ih =>
      intro d i c e he
      rcases List.mem_cons.mp he with he | he
      · subst he
        exact ⟨rfl, rfl⟩
      · exact ih _ _ _ e he

/-- C2: for a multi-day (week) forecast request in the station path, if the
aggregated observation result has fewer than `min(3, expectedDays)` entries
— `expectedDays` being the inclusive day count of the requested window
(7 for a week) — the handler falls through to the synthetic generator, and
the synthetic result covers the full window: exactly 7 entries, one per
requested day in order, each with non-null `tempMin` and `tempMax`. -/
theorem insufficient_coverage_synthetic_week (today : Int)
    (channels : List ChannelDataItem) (dl : Option String)
    (cfr : Except Unit (List ParsedForecast))
    (xh : List ParsedForecast → List HourlyForecast)
    (xd : List ParsedForecast → List DailyForecast)
    (jsSin : Q → Q) (jsSinH : Nat → Q) (rand : Nat → Q)
    (hmiss : feedHit dl cfr = false)
    (hcov : ((aggregateDaily channels).length : Int) < min 3
      ((forecastWindow today (some "week")).toD -
        (forecastWindow today (some "week")).fromD + 1)) :
    handleForecast today (some "week") dl cfr xh xd channels jsSin jsSinH
        rand =
      ⟨"station", .daily (generateFallbackDailyForecast today (today + 6) 20
        jsSin rand)⟩ ∧
    (generateFallbackDailyForecast today (today + 6) 20 jsSin rand).length =
      7 ∧
    (generateFallbackDailyForecast today (today + 6) 20 jsSin rand).map
        (fun e => e.date) =
      (List.range 7).map (fun j => dayToISO (today + Int.ofNat j)) ∧
    ∀ e ∈ generateFallbackDailyForecast today (today + 6) 20 jsSin rand,
      e.tempMin.isSome = true ∧ e.tempMax.isSome = true := by
  have hwin : forecastWindow today (some "week") = ⟨today, today + 6⟩ := rfl
  rw [hwin] at hcov
  have hlt : ((aggregateDaily channels).length : Int) < 3 :=
    lt_of_lt_of_le hcov (min_le_left _ _)
  have h7 : (today + 6 + 1 - today).toNat = 7 := by omega
  refine ⟨?_, ?_, ?_, ?_⟩
  · cases dl with
    | none =>
        simp [handleForecast, forecastWindow, periodOrToday,
          getForecastDateRange, ForecastData.length, generateFallbackForecast,
          hcov]
        intro h
        exact absurd h (by omega)
    | some d =>
        cases cfr with
        | error e =>
            simp [handleForecast, forecastWindow, periodOrToday,
              getForecastDateRange, ForecastData.length,
              generateFallbackForecast, hcov]
            intro h
            exact absurd h (by omega)
        | ok cf =>
            simp [feedHit] at hmiss
            simp [handleForecast, forecastWindow, periodOrToday,
              getForecastDateRange, ForecastData.length,
              generateFallbackForecast, hcov, hmiss]
            intro h
            exact absurd h (by omega)
  · simp [generateFallbackDailyForecast, genFallbackDailyGo_length, h7]
  · simp only [generateFallbackDailyForecast, h7, genFallbackDailyGo_dates]
  · intro e he
    exact genFallbackDailyGo_temp_some 20 jsSin rand _ today 0 0 e
      (by simpa [generateFallbackDailyForecast] using he)

/-- Witness for C2's theorem at a concrete input: no feed, no observations
(`channels = []`, aggregate length 0 < 3), so the week response is the
7-entry synthetic forecast. -/
theorem insufficient_coverage_synthetic_week_witness :
    handleForecast 20493 (some "week") none (.error ()) (fun _ => [])
        (fun _ => []) [] (fun _ => 0) (fun _ => 0) (fun _ => 0) =
      ⟨"station", .daily (generateFallbackDailyForecast 20493 (20493 + 6) 20
        (fun _ => 0) (fun _ => 0))⟩ ∧
    (generateFallbackDailyForecast 20493 (20493 + 6) 20 (fun _ => 0)
        (fun _ => 0)).length = 7 ∧
    (generateFallbackDailyForecast 20493 (20493 + 6) 20 (fun _ => 0)
        (fun _ => 0)).map (fun e => e.date) =
      (List.range 7).map (fun j => dayToISO (20493 + Int.ofNat j)) ∧
    ∀ e ∈ generateFallbackDailyForecast 20493 (20493 + 6) 20 (fun _ => 0)
        (fun _ => 0),
      e.tempMin.isSome = true ∧ e.tempMax.isSome = true :=
  insufficient_coverage_synthetic_week 20493 [] none (.error ())
    (fun _ => []) (fun _ => []) (fun _ => 0) (fun _ => 0) (fun _ => 0)
    (by decide) (by decide)

theorem sortByB_singleton {α : Type} (le : α → α → Bool) (x : α) :
    sortByB le [x] = [x] := rfl

theorem dailyStep_singleton (cid : Int) (k : String) (a : DailyAcc)
    (r : DataReading) (h : dayKey r.datetime = k) :
    dailyStep cid [(k, a)] r = [(k, dailyReadingStep cid a r)] := by
  simp [dailyStep, bstep, dailyReadingStep, h]

theorem foldl_dailyStep_singleton (cid : Int) (k : String) :
    ∀ (rs : List DataReading) (a : DailyAcc),
      (∀ r ∈ rs, dayKey r.datetime = k) →
      rs.foldl (dailyStep cid) [(k, a)] =
        [(k, rs.foldl (dailyReadingStep cid) a)] := by
  intro rs
  induction rs with
  | nil => intro a h; rfl
  | cons r rest ih =>
      intro a h
      simp only [List.foldl_cons]
      rw [dailyStep_singleton cid k a r (h r (List.mem_cons_self r rest))]
      exact ih _ (fun x hx => h x (List.mem_cons_of_mem r hx))

theorem foldl_dailyStep_from_nil (cid : Int) (k : String) (r : DataReading)
    (rest : List DataReading) (h : ∀ x ∈ r :: rest, dayKey x.datetime = k) :
    (r :: rest).foldl (dailyStep cid) [] =
      [(k, (r :: rest).foldl (dailyReadingStep cid) (emptyDailyAcc k))] := by
  have h0 : dayKey r.datetime = k := h r (List.mem_cons_self r rest)
  simp only [List.foldl_cons]
  have hfirst : dailyStep cid [] r =
      [(k, dailyReadingStep cid (emptyDailyAcc k) r)] := by
    simp [dailyStep, bstep, dailyReadingStep, h0]
  rw [hfirst]
  exact foldl_dailyStep_singleton cid k rest _
    (fun x hx => h x (List.mem_cons_of_mem r hx))

theorem dailyReadingStep7_fields (a : DailyAcc) (r : DataReading) :
    (dailyReadingStep 7 a r).date = a.date ∧
    (dailyReadingStep 7 a r).temps = a.temps ++ (vOf r).toList ∧
    (dailyReadingStep 7 a r).humidity = a.humidity ∧
    (dailyReadingStep 7 a r).windSpeed = a.windSpeed ∧
    (dailyReadingStep 7 a r).rain = a.rain := by
  obtain ⟨dd, tt, lt', ltt, hh, ww, rr⟩ := a
  cases hcs : r.channels with
  | nil => simp [dailyReadingStep, vOf, hcs]
  | cons cv cvs =>
      have hv : vOf r = some cv.value := by simp [vOf, hcs]
      rw [hv]
      cases ltt with
      | none => simp [dailyReadingStep, dailyPush, hcs, Option.toList]
      | some t0 =>
          by_cases hlt : t0.ltb r.datetime = true
          · simp [dailyReadingStep, dailyPush, hcs, hlt, Option.toList]
          · simp [dailyReadingStep, dailyPush, hcs, hlt, Option.toList]

theorem acc7_foldl_fields : ∀ (rs : List DataReading) (a : DailyAcc),
    (rs.foldl (dailyReadingStep 7) a).date = a.date ∧
    (rs.foldl (dailyReadingStep 7) a).temps = a.temps ++ rs.filterMap vOf ∧
    (rs.foldl (dailyReadingStep 7) a).humidity = a.humidity ∧
    (rs.foldl (dailyReadingStep 7) a).windSpeed = a.windSpeed ∧
    (rs.foldl (dailyReadingStep 7) a).rain = a.rain := by
  intro rs
  induction rs with
  | nil => intro a; simp
  | cons r rest ih =>
      intro a
      obtain ⟨h1, h2, h3, h4, h5⟩ := dailyReadingStep7_fields a r
      obtain ⟨g1, g2, g3, g4, g5⟩ := ih (dailyReadingStep 7 a r)
      simp only [List.foldl_cons]
      refine ⟨g1.trans h1, ?_, g3.trans h3, g4.trans h4, g5.trans h5⟩
      rw [g2, h2]
      cases hv : vOf r with
      | none => simp [List.filterMap_cons, hv]
      | some v => simp [List.filterMap_cons, hv]

theorem dailyPush7_last (a : DailyAcc) (t : JsDate) (v : Q)
    (h : a.lastTempTime = none ∨
      ∃ t0, a.lastTempTime = some t0 ∧ t0.ltb t = true) :
    (dailyPush 7 t v a).lastTemp = some v ∧
    (dailyPush 7 t v a).lastTempTime = some t := by
  unfold dailyPush
  rcases h with h | ⟨t0, h, hlt⟩
  · simp [h]
  · simp [h, hlt]

theorem acc7_lastTemp :
    ∀ (rest : List DataReading) (r : DataReading) (a : DailyAcc),
      (∀ x ∈ r :: rest, x.channels ≠ []) →
      List.Chain' (fun x y => x.datetime.ltb y.datetime = true) (r :: rest) →
      (a.lastTempTime = none ∨
        ∃ t0, a.lastTempTime = some t0 ∧ t0.ltb r.datetime = true) →
      ((r :: rest).foldl (dailyReadingStep 7) a).lastTemp =
        (r :: rest).getLast?.bind vOf := by
  intro rest
  induction rest with
  | nil =>
      intro r a hch hchain hpre
      have hne := hch r (List.mem_cons_self r [])
      cases hcs : r.channels with
      | nil => exact absurd hcs hne
      | cons cv cvs =>
          have hlast : ([r] : List DataReading).getLast? = some r := rfl
          simp only [List.foldl_cons, List.foldl_nil, hlast,
            Option.some_bind]
          have hstep : dailyReadingStep 7 a r =
              dailyPush 7 r.datetime cv.value a := by
            simp [dailyReadingStep, hcs]
          have hv : vOf r = some cv.value := by simp [vOf, hcs]
          rw [hstep, hv]
          exact (dailyPush7_last a r.datetime cv.value hpre).1
  | cons r2 rest2 ih =>
      intro r a hch hchain hpre
      obtain ⟨hlt12, hchain2⟩ := List.chain'_cons.mp hchain
      have hne := hch r (List.mem_cons_self r (r2 :: rest2))
      have ha2 : (dailyReadingStep 7 a r).lastTempTime = some r.datetime := by
        cases hcs : r.channels with
        | nil => exact absurd hcs hne
        | cons cv cvs =>
            have hstep : dailyReadingStep 7 a r =
                dailyPush 7 r.datetime cv.value a := by
              simp [dailyReadingStep, hcs]
            rw [hstep]
            exact (dailyPush7_last a r.datetime cv.value hpre).2
      have hrec := ih r2 (dailyReadingStep 7 a r)
        (fun x hx => hch x (List.mem_cons_of_mem r hx)) hchain2
        (Or.inr ⟨r.datetime, ha2, hlt12⟩)
      simp only [List.foldl_cons] at hrec ⊢
      rw [hrec, List.getLast?_cons_cons]

/-- C7: for a day bucket built by `aggregateDaily` from temperature
readings (channel 7) of a single day, delivered in ascending timestamp
order (so "the single reading with the latest timestamp" is the last one),
`tempMin`/`tempMax` are the minimum/maximum reading values and
`tempCurrent` is the value of the reading with the latest timestamp — not
an average and not the max; humidity, wind speed and rain stay `null`. -/
theorem daily_min_max_current (sid : Int) (readings : List DataReading)
    (k : String) (hne : readings ≠ [])
    (hday : ∀ r ∈ readings, dayKey r.datetime = k)
    (hch : ∀ r ∈ readings, r.channels ≠ [])
    (hmono : List.Chain' (fun x y => x.datetime.ltb y.datetime = true)
      readings) :
    aggregateDaily [⟨7, ⟨sid, 7, readings⟩⟩] =
      [{ date := k
         tempMin := some (toFixed1 (listMin (readings.filterMap vOf)))
         tempMax := some (toFixed1 (listMax (readings.filterMap vOf)))
         tempCurrent := (readings.getLast?.bind vOf).map toFixed1
         humidity := none
         windSpeed := none
         rain := none }] := by
  obtain ⟨r, rest, rfl⟩ := List.exists_cons_of_ne_nil hne
  have hagg : aggregateDaily [⟨7, ⟨sid, 7, r :: rest⟩⟩] =
      sortByB (fun a b => strLe a.date b.date)
        (((r :: rest).foldl (dailyStep 7) []).map (fun p => renderDaily p.2))
      := rfl
  rw [hagg, foldl_dailyStep_from_nil 7 k r rest hday]
  simp only [List.map_cons, List.map_nil, sortByB_singleton]
  obtain ⟨hd, ht, hh, hw, hr⟩ :=
    acc7_foldl_fields (r :: rest) (emptyDailyAcc k)
  have hl := acc7_lastTemp rest r (emptyDailyAcc k) hch hmono (Or.inl rfl)
  have hvr : ∃ v, vOf r = some v := by
    cases hcs : r.channels with
    | nil => exact absurd hcs (hch r (List.mem_cons_self r rest))
    | cons cv cvs => exact ⟨cv.value, by simp [vOf, hcs]⟩
  obtain ⟨v0, hv0⟩ := hvr
  have htne : ((r :: rest).filterMap vOf).length ≠ 0 := by
    rw [List.filterMap_cons, hv0]
    simp
  have hcur : ∀ o : Option Q,
      (match o with
        | some v => some (toFixed1 v)
        | none => (none : Option String)) = o.map toFixed1 := by
    intro o; cases o <;> rfl
  have h2 : ((r :: rest).foldl (dailyReadingStep 7)
      (emptyDailyAcc k)).temps = (r :: rest).filterMap vOf := by
    rw [ht]; rfl
  have hfields : renderDaily ((r :: rest).foldl (dailyReadingStep 7)
      (emptyDailyAcc k)) =
      { date := k
        tempMin := some (toFixed1 (listMin ((r :: rest).filterMap vOf)))
        tempMax := some (toFixed1 (listMax ((r :: rest).filterMap vOf)))
        tempCurrent := ((r :: rest).getLast?.bind vOf).map toFixed1
        humidity := none
        windSpeed := none
        rain := none } := by
    simp only [renderDaily, hd, h2, hh, hw, hr, hl, hcur]
    rw [if_pos htne, if_pos htne]
    rfl
  rw [hfields]

/-- Witness for C7's theorem: the spec's example — readings
(08:00, 14.0), (14:00, 22.0), (20:00, 18.0) on one day yield
`tempMin = "14.0"`, `tempMax = "22.0"`, `tempCurrent = "18.0"` (the latest
reading's value, not the maximum). -/
theorem daily_min_max_current_witness :
    aggregateDaily [⟨7, ⟨178, 7,
        [⟨⟨2026, 2, 10, 8, 0⟩, [⟨⟨14, 1⟩, "ok", true⟩]⟩,
         ⟨⟨2026, 2, 10, 14, 0⟩, [⟨⟨22, 1⟩, "ok", true⟩]⟩,
         ⟨⟨2026, 2, 10, 20, 0⟩, [⟨⟨18, 1⟩, "ok", true⟩]⟩]⟩⟩] =
      [⟨"2026-02-10", some "14.0", some "22.0", some "18.0", none, none,
        none⟩] := by
  have h := daily_min_max_current 178
    [⟨⟨2026, 2, 10, 8, 0⟩, [⟨⟨14, 1⟩, "ok", true⟩]⟩,
     ⟨⟨2026, 2, 10, 14, 0⟩, [⟨⟨22, 1⟩, "ok", true⟩]⟩,
     ⟨⟨2026, 2, 10, 20, 0⟩, [⟨⟨18, 1⟩, "ok", true⟩]⟩]
    "2026-02-10" (by decide) (by decide) (by decide)
    (List.Chain.cons (by decide) (List.Chain.cons (by decide)
      List.Chain.nil))
  rw [h]
  decide
